import Mathlib

/-!
# Verification of the arxiv-tools query builder and feed parser

A shallow embedding of `src/arxiv-tools/src/lib.rs`: the percent-encoding
primitive `encode`, the query-expression builder `QueryParams`, the request
holder `ArXiv` with its `build_query` renderer, and the streaming feed parser
`parse_xml` modelled as a fold over XML structural events.

Strings are modelled by Lean `String` (a packed `List Char`); the encoder is
modelled at the character level, which coincides with the Rust byte-level
behaviour on ASCII input (the only input exercised by the specification's
claims).  Machine integers (`u64`) carry no arithmetic here beyond decimal
formatting, so they are modelled by `Nat`.
-/

namespace ArxivTools

/-- Upper-case hexadecimal digit for a nibble, as produced by the
`percent_encoding` crate (`utf8_percent_encode` emits upper-case hex). -/
def hexDigit (n : Nat) : Char :=
  match n with
  | 0 => '0' | 1 => '1' | 2 => '2' | 3 => '3' | 4 => '4' | 5 => '5'
  | 6 => '6' | 7 => '7' | 8 => '8' | 9 => '9' | 10 => 'A' | 11 => 'B'
  | 12 => 'C' | 13 => 'D' | 14 => 'E' | 15 => 'F' | _ => '0'

/-- One character of `utf8_percent_encode(s, NON_ALPHANUMERIC)`: ASCII
alphanumerics pass through, every other character becomes `%XX` (for ASCII
input the UTF-8 byte is the code point). -/
def percentEncodeChar (c : Char) : List Char :=
  if c.isAlphanum then [c] else ['%', hexDigit (c.toNat / 16), hexDigit (c.toNat % 16)]

/-- `utf8_percent_encode(s, NON_ALPHANUMERIC).to_string()` on ASCII text. -/
def percentEncode (l : List Char) : List Char :=
  l.flatMap percentEncodeChar

/-- Rust `str::replace("%20", "+")`: left-to-right, non-overlapping. -/
def replaceSpaceEnc : List Char → List Char
  | '%' :: '2' :: '0' :: rest => '+' :: replaceSpaceEnc rest
  | c :: rest => c :: replaceSpaceEnc rest
  | [] => []

/-- `fn encode(s: &str) -> String` (lib.rs:58-62): percent-encode every
non-alphanumeric character, then replace each `%20` by `+`. -/
def encode (s : String) : String :=
  ⟨replaceSpaceEnc (percentEncode s.data)⟩

/-- String-level `str::replace("%20", "+")`, as used in `build_query`
(lib.rs:535). -/
def replaceSpaceEncS (s : String) : String :=
  ⟨replaceSpaceEnc s.data⟩

/-- `enum Category` (lib.rs:64-84). -/
inductive Category where
  | CsAi | CsCl | CsLg | CsGt | CsCv | CsCr | CsCc | CsCe | CsCy | CsDs
  | CsDm | CsDc | CsEt | CsFl | CsGl | CsGr | CsAr | CsHc | CsIr
deriving DecidableEq

/-- `Category::to_string` (lib.rs:86-110). -/
def Category.toString : Category → String
  | .CsAi => "cs.AI" | .CsCl => "cs.CL" | .CsLg => "cs.LG" | .CsGt => "cs.GT"
  | .CsCv => "cs.CV" | .CsCr => "cs.CR" | .CsCc => "cs.CC" | .CsCe => "cs.CE"
  | .CsCy => "cs.CY" | .CsDs => "cs.DS" | .CsDm => "cs.DM" | .CsDc => "cs.DC"
  | .CsEt => "cs.ET" | .CsFl => "cs.FL" | .CsGl => "cs.GL" | .CsGr => "cs.GR"
  | .CsAr => "cs.AR" | .CsHc => "cs.HC" | .CsIr => "cs.IR"

/-- `enum QueryParams` (lib.rs:112-127): every variant carries the
already-encoded payload string. -/
inductive QueryParams where
  | Title (arg : String)
  | Author (arg : String)
  | Abstract (arg : String)
  | Comment (arg : String)
  | JournalRef (arg : String)
  | SubjectCategory (arg : String)
  | ReportNumber (arg : String)
  | Id (arg : String)
  | All (arg : String)
  | And (arg : String)
  | Or (arg : String)
  | AndNot (arg : String)
  | Group (arg : String)
deriving DecidableEq

namespace QueryParams

/-- `QueryParams::title` (lib.rs:170-172). -/
def title (arg : String) : QueryParams :=
  .Title (encode ("ti:\"" ++ arg ++ "\""))

/-- `QueryParams::author` (lib.rs:173-175). -/
def author (arg : String) : QueryParams :=
  .Author (encode ("au:\"" ++ arg ++ "\""))

/-- `QueryParams::abstract_text` (lib.rs:176-178). -/
def abstract_text (arg : String) : QueryParams :=
  .Abstract (encode ("abs:\"" ++ arg ++ "\""))

/-- `QueryParams::comment` (lib.rs:179-181). -/
def comment (arg : String) : QueryParams :=
  .Comment (encode ("co:\"" ++ arg ++ "\""))

/-- `QueryParams::journal_ref` (lib.rs:182-184). -/
def journal_ref (arg : String) : QueryParams :=
  .JournalRef (encode ("jr:\"" ++ arg ++ "\""))

/-- `QueryParams::subject_category` (lib.rs:185-187). -/
def subject_category (arg : Category) : QueryParams :=
  .SubjectCategory (encode ("cat:\"" ++ arg.toString ++ "\""))

/-- `QueryParams::report_number` (lib.rs:188-190). -/
def report_number (arg : String) : QueryParams :=
  .ReportNumber (encode ("rn:\"" ++ arg ++ "\""))

/-- `QueryParams::id` (lib.rs:191-193). -/
def id (arg : String) : QueryParams :=
  .Id (encode ("id:\"" ++ arg ++ "\""))

/-- `QueryParams::all` (lib.rs:194-196). -/
def all (arg : String) : QueryParams :=
  .All (encode ("all:\"" ++ arg ++ "\""))

/-- `QueryParams::to_string` (lib.rs:197-213): every variant renders its
payload string unchanged. -/
def toString : QueryParams → String
  | .Title arg => arg
  | .Author arg => arg
  | .Abstract arg => arg
  | .Comment arg => arg
  | .JournalRef arg => arg
  | .SubjectCategory arg => arg
  | .ReportNumber arg => arg
  | .Id arg => arg
  | .All arg => arg
  | .And arg => arg
  | .Or arg => arg
  | .AndNot arg => arg
  | .Group arg => arg

/-- `QueryParams::and` (lib.rs:214-221): children rendered individually and
joined by `encode(" AND ")`. -/
def and (args : List QueryParams) : QueryParams :=
  .And (String.intercalate (encode " AND ") (args.map toString))

/-- `QueryParams::or` (lib.rs:222-229). -/
def or (args : List QueryParams) : QueryParams :=
  .Or (String.intercalate (encode " OR ") (args.map toString))

/-- `QueryParams::and_not` (lib.rs:230-237).  Note the source joins with
`encode(" ANDNOT ")` but wraps the result in the `Or` constructor; rendering
is unaffected since `to_string` returns the payload of every variant. -/
def and_not (args : List QueryParams) : QueryParams :=
  .Or (String.intercalate (encode " ANDNOT ") (args.map toString))

/-- `QueryParams::group` (lib.rs:238-247): `encode("(")` is inserted in
front, `encode(")")` is pushed at the back, and the list is joined with the
empty separator. -/
def group (args : List QueryParams) : QueryParams :=
  .Group (String.join ((encode "(" :: args.map toString) ++ [encode ")"]))

/-- `impl Default for QueryParams` (lib.rs:129-133). -/
def default : QueryParams := title "default"

end QueryParams

/-- `enum SortBy` (lib.rs:135-141). -/
inductive SortBy where
  | Relevance
  | LastUpdatedDate
  | SubmittedDate
deriving DecidableEq

/-- `SortBy::to_string` (lib.rs:143-151). -/
def SortBy.toString : SortBy → String
  | .Relevance => "relevance"
  | .LastUpdatedDate => "lastUpdatedDate"
  | .SubmittedDate => "submittedDate"

/-- `enum SortOrder` (lib.rs:153-158). -/
inductive SortOrder where
  | Ascending
  | Descending
deriving DecidableEq

/-- `SortOrder::to_string` (lib.rs:160-167). -/
def SortOrder.toString : SortOrder → String
  | .Ascending => "ascending"
  | .Descending => "descending"

/-- `struct ArXiv` (lib.rs:286-294); `u64` fields are modelled by `Nat`
(they are only ever formatted in decimal).  The field name `max_resutls`
reproduces the source spelling. -/
structure ArXiv where
  args : QueryParams
  submitted_date : Option String
  start : Option Nat
  max_resutls : Option Nat
  sort_by : Option SortBy
  sort_order : Option SortOrder
deriving DecidableEq

namespace ArXiv

/-- `ArXiv::from_args` (lib.rs:297-306). -/
def from_args (args : QueryParams) : ArXiv :=
  { args := args, submitted_date := none, start := none, max_resutls := none,
    sort_by := none, sort_order := none }

/-- `impl Default for ArXiv` (derived, lib.rs:286): default `args` is
`QueryParams::title("default")`, the options are `None`. -/
def defaultVal : ArXiv := from_args QueryParams.default

/-- `ArXiv::submitted_date` (lib.rs:308-311), the setter: stores the clause
`&submittedDate:[<from>+TO+<to>]` built verbatim from its two arguments.
Renamed from the source's `submitted_date` because the structure field of
the same name occupies that Lean name. -/
def setSubmittedDate (a : ArXiv) (dfrom dto : String) : ArXiv :=
  { a with submitted_date := some ("&submittedDate:[" ++ dfrom ++ "+TO+" ++ dto ++ "]") }

/-- `ArXiv::start` (lib.rs:312-315), the setter. -/
def setStart (a : ArXiv) (start : Nat) : ArXiv :=
  { a with start := some start }

/-- `ArXiv::max_results` (lib.rs:316-319), the setter. -/
def setMaxResults (a : ArXiv) (max_results : Nat) : ArXiv :=
  { a with max_resutls := some max_results }

/-- `ArXiv::sort_by` (lib.rs:320-323), the setter. -/
def setSortBy (a : ArXiv) (sort_by : SortBy) : ArXiv :=
  { a with sort_by := some sort_by }

/-- `ArXiv::sort_order` (lib.rs:324-327), the setter. -/
def setSortOrder (a : ArXiv) (sort_order : SortOrder) : ArXiv :=
  { a with sort_order := some sort_order }

/-- `ArXiv::build_query` (lib.rs:533-553), written in the source's
sequential push style: start from the rendered expression with `%20`
replaced by `+`, append the optional clauses in order, then prefix the
fixed base. -/
def build_query (a : ArXiv) : String :=
  let query := replaceSpaceEncS a.args.toString
  let query := query ++ (match a.submitted_date with
    | some submitted_date => submitted_date
    | none => "")
  let query := query ++ (match a.start with
    | some start => "&start=" ++ ToString.toString start
    | none => "")
  let query := query ++ (match a.max_resutls with
    | some max_resutls => "&max_results=" ++ ToString.toString max_resutls
    | none => "")
  let query := query ++ (match a.sort_by with
    | some sort_by => "&sortBy=" ++ sort_by.toString
    | none => "")
  let query := query ++ (match a.sort_order with
    | some sort_order => "&sortOrder=" ++ sort_order.toString
    | none => "")
  "http://export.arxiv.org/api/query?search_query=" ++ query

end ArXiv

/-- `struct Paper` (lib.rs:250-265). -/
structure Paper where
  id : String
  title : String
  authors : List String
  abstract_text : String
  published : String
  updated : String
  doi : String
  comment : List String
  journal_ref : String
  pdf_url : String
  primary_category : String
  categories : List String
deriving DecidableEq

/-- `Paper::default` (lib.rs:267-284): empty strings and empty lists. -/
def Paper.default : Paper :=
  { id := "", title := "", authors := [], abstract_text := "", published := "",
    updated := "", doi := "", comment := [], journal_ref := "", pdf_url := "",
    primary_category := "", categories := [] }

/-- One structural XML event as delivered by `quick_xml`'s
`Reader::read_event_into` (the tokenizer itself is an external crate, so the
parser is modelled from the event stream up).  Attribute lists carry
(key, value) pairs; `text` carries the already-unescaped character data
(`BytesText::unescape` is also the external crate's).  `close` stands for
`Event::End` (`end` is reserved in Lean); `other` stands for every event
kind the source's catch-all `_ => ()` arm ignores. -/
inductive XmlEvent where
  | start (name : String) (attrs : List (String × String))
  | close (name : String)
  | text (s : String)
  | empty (name : String) (attrs : List (String × String))
  | eof
  | other
deriving DecidableEq

/-- The mutable locals of `ArXiv::parse_xml` (lib.rs:332-344): the context
flags, the accumulator `res`, and the result vector `responses`. -/
structure ParseState where
  in_entry : Bool
  in_id : Bool
  in_title : Bool
  in_author : Bool
  in_name : Bool
  in_abstract : Bool
  in_published : Bool
  in_updated : Bool
  in_comment : Bool
  in_journal_ref : Bool
  res : Paper
  responses : List Paper
deriving DecidableEq

/-- The initial local state of `parse_xml` (lib.rs:332-344): all flags
false, `res = Paper::default()`, no responses. -/
def initState : ParseState :=
  { in_entry := false, in_id := false, in_title := false, in_author := false,
    in_name := false, in_abstract := false, in_published := false,
    in_updated := false, in_comment := false, in_journal_ref := false,
    res := Paper.default, responses := [] }

/-- First attribute pass of the `link` arms (lib.rs:372-384 and
lib.rs:478-490): scan all attributes, recording whether a `title` attribute
equals `pdf` or `doi`. -/
def linkFlags (attrs : List (String × String)) : Bool × Bool :=
  attrs.foldl (fun fl attr =>
    if attr.1 = "title" && attr.2 = "pdf" then (true, fl.2)
    else if attr.1 = "title" && attr.2 = "doi" then (fl.1, true)
    else fl) (false, false)

/-- Second attribute pass of the `link` arms (lib.rs:385-397 and
lib.rs:491-503): for every `href` attribute, store its value as `pdf_url`
when a `title="pdf"` attribute was seen, else as `doi` when `title="doi"`
was seen. -/
def applyLink (attrs : List (String × String)) (res : Paper) : Paper :=
  let fl := linkFlags attrs
  attrs.foldl (fun r attr =>
    if attr.1 = "href" then
      if fl.1 then { r with pdf_url := attr.2 }
      else if fl.2 then { r with doi := attr.2 }
      else r
    else r) res

/-- The `arxiv:primary_category` arms (lib.rs:398-406 and lib.rs:504-512):
every `term` attribute overwrites `primary_category`. -/
def applyPrimaryCategory (attrs : List (String × String)) (res : Paper) : Paper :=
  attrs.foldl (fun r attr =>
    if attr.1 = "term" then { r with primary_category := attr.2 } else r) res

/-- The `category` arms (lib.rs:407-415 and lib.rs:513-522): the first
`term` attribute, if any, is appended to `categories`.  (The source's
second, identical `category` arm at lib.rs:416-424 is unreachable.) -/
def applyCategory (attrs : List (String × String)) (res : Paper) : Paper :=
  match attrs.find? (fun attr => attr.1 = "term") with
  | some attr => { res with categories := res.categories ++ [attr.2] }
  | none => res

/-- Rust `str::trim`: strip leading and trailing whitespace. -/
def rustTrim (s : String) : String :=
  ⟨((s.data.dropWhile Char.isWhitespace).reverse.dropWhile Char.isWhitespace).reverse⟩

/-- Rust `str::replace("\n", "")`: drop every newline character. -/
def stripNewlines (s : String) : String :=
  ⟨s.data.filter (fun c => c ≠ '\n')⟩

/-- One iteration of the `parse_xml` event loop (lib.rs:346-527), acting on
the local state.  Each `if`/`else if` chain mirrors the source arm for arm,
including the slip at lib.rs:451 where the `Event::End` arm for
`arxiv:journal_ref` sets `in_journal_ref` to `true` instead of `false`. -/
def step (st : ParseState) (ev : XmlEvent) : ParseState :=
  match ev with
  | .start name attrs =>
    if name = "entry" then { st with in_entry := true, res := Paper.default }
    else if name = "id" then { st with in_id := true }
    else if name = "title" then { st with in_title := true }
    else if name = "author" then { st with in_author := true }
    else if name = "name" then
      (if st.in_author then { st with in_name := true } else st)
    else if name = "summary" then { st with in_abstract := true }
    else if name = "published" then { st with in_published := true }
    else if name = "updated" then { st with in_updated := true }
    else if name = "arxiv:comment" then { st with in_comment := true }
    else if name = "arxiv:journal_ref" then { st with in_journal_ref := true }
    else if name = "link" ∧ st.in_entry then { st with res := applyLink attrs st.res }
    else if name = "arxiv:primary_category" then
      { st with res := applyPrimaryCategory attrs st.res }
    else if name = "category" then { st with res := applyCategory attrs st.res }
    else st
  | .close name =>
    if name = "entry" then
      { st with in_entry := false, responses := st.responses ++ [st.res],
                res := Paper.default }
    else if name = "id" then { st with in_id := false }
    else if name = "title" then { st with in_title := false }
    else if name = "author" then { st with in_author := false }
    else if name = "name" then
      (if st.in_author then { st with in_name := false } else st)
    else if name = "summary" then { st with in_abstract := false }
    else if name = "published" then { st with in_published := false }
    else if name = "updated" then { st with in_updated := false }
    else if name = "arxiv:comment" then { st with in_comment := false }
    else if name = "arxiv:journal_ref" then { st with in_journal_ref := true }
    else st
  | .text s =>
    if st.in_entry then
      if st.in_id then { st with res := { st.res with id := s } }
      else if st.in_title then { st with res := { st.res with title := s } }
      else if st.in_author ∧ st.in_name then
        { st with res := { st.res with authors := st.res.authors ++ [s] } }
      else if st.in_abstract then
        { st with res := { st.res with abstract_text := stripNewlines (rustTrim s) } }
      else if st.in_published then { st with res := { st.res with published := s } }
      else if st.in_updated then { st with res := { st.res with updated := s } }
      else if st.in_comment then
        { st with res := { st.res with comment := st.res.comment ++ [s] } }
      else if st.in_journal_ref then { st with res := { st.res with journal_ref := s } }
      else st
    else st
  | .empty name attrs =>
    if name = "link" ∧ st.in_entry then { st with res := applyLink attrs st.res }
    else if name = "arxiv:primary_category" ∧ st.in_entry then
      { st with res := applyPrimaryCategory attrs st.res }
    else if name = "category" ∧ st.in_entry then
      { st with res := applyCategory attrs st.res }
    else st
  | .eof => st
  | .other => st

/-- The `parse_xml` event loop (lib.rs:345-529): iterate `step` over the
event stream, terminating at `Event::Eof`. -/
def parseEvents : ParseState → List XmlEvent → ParseState
  | st, [] => st
  | st, .eof :: _ => st
  | st, ev :: rest => parseEvents (step st ev) rest

/-- `ArXiv::parse_xml` (lib.rs:329-531), from the event stream up.  The
method takes `&self` but its body never reads or writes any field of
`self`; the embedding takes and ignores the receiver accordingly. -/
def ArXiv.parse_xml (_a : ArXiv) (events : List XmlEvent) : List Paper :=
  (parseEvents initState events).responses

/-- Events that never terminate the scan: everything but `Event::Eof`. -/
def noEofEv : XmlEvent → Bool
  | .eof => false
  | _ => true

/-- Events local to one `entry` body: no `entry` open, no `entry` close,
and no end-of-document. -/
def entryLocalEv : XmlEvent → Bool
  | .start n _ => !(n == "entry")
  | .close n => !(n == "entry")
  | .eof => false
  | _ => true

/-- A whole event list local to one `entry` body. -/
def entryLocal (evs : List XmlEvent) : Bool :=
  evs.all entryLocalEv

/-- The state transition taken at an `entry` open event. -/
def entryOpen (st : ParseState) : ParseState :=
  step st (.start "entry" [])

/-- Forget the already-sealed papers of a state. -/
def scrubResponses (st : ParseState) : ParseState :=
  { st with responses := [] }

/-- Everything the scan state carries across events except the sealed
`responses`: the ten context flags and the current accumulator. -/
def flagsRes (st : ParseState) :
    (Bool × Bool × Bool × Bool × Bool × Bool × Bool × Bool × Bool × Bool) × Paper :=
  ((st.in_entry, st.in_id, st.in_title, st.in_author, st.in_name, st.in_abstract,
    st.in_published, st.in_updated, st.in_comment, st.in_journal_ref), st.res)

/-- The `&start=<n>` clause of `build_query` (lib.rs:539-541), empty when
the offset was never set. -/
def startClause (o : Option Nat) : String :=
  match o with
  | some n => "&start=" ++ ToString.toString n
  | none => ""

/-- The `&max_results=<n>` clause of `build_query` (lib.rs:542-544). -/
def maxResultsClause (o : Option Nat) : String :=
  match o with
  | some n => "&max_results=" ++ ToString.toString n
  | none => ""

/-- The `&sortBy=<key>` clause of `build_query` (lib.rs:545-547). -/
def sortByClause (o : Option SortBy) : String :=
  match o with
  | some sb => "&sortBy=" ++ sb.toString
  | none => ""

/-- The `&sortOrder=<order>` clause of `build_query` (lib.rs:548-550). -/
def sortOrderClause (o : Option SortOrder) : String :=
  match o with
  | some so => "&sortOrder=" ++ so.toString
  | none => ""

/-- The date-range clause of `build_query` (lib.rs:536-538), empty when no
range was set. -/
def dateClause (o : Option String) : String :=
  match o with
  | some s => s
  | none => ""

/-- Value of an upper-case hexadecimal digit (inverse of `hexDigit`);
other characters map to 0. -/
def hexVal (c : Char) : Nat :=
  match c with
  | '0' => 0 | '1' => 1 | '2' => 2 | '3' => 3 | '4' => 4 | '5' => 5
  | '6' => 6 | '7' => 7 | '8' => 8 | '9' => 9 | 'A' => 10 | 'B' => 11
  | 'C' => 12 | 'D' => 13 | 'E' => 14 | 'F' => 15 | _ => 0

/-- Modelled from the spec: standard percent-decoding of a URL query
component (the repository contains no decoder; the spec's round-trip
property, §8, applies it to the rendered predicate).  A `+` decodes to a
space, a `%` followed by two hex digits decodes to the byte they denote,
every other character stands for itself. -/
def percentDecode : List Char → List Char
  | [] => []
  | '+' :: rest => ' ' :: percentDecode rest
  | '%' :: a :: b :: rest =>
      Char.ofNat (16 * hexVal a + hexVal b) :: percentDecode rest
  | c :: rest => c :: percentDecode rest

/-- String-level percent-decoding. -/
def percentDecodeS (s : String) : String :=
  ⟨percentDecode s.data⟩

/-- Printable ASCII: code points 32 (space) through 126 (tilde). -/
def printableAscii (c : Char) : Bool :=
  decide (32 ≤ c.toNat) && decide (c.toNat ≤ 126)

/-- The net effect of `encode` on one printable character: alphanumerics
pass through, a space becomes `+` (its `%20` is rewritten by the
`replace` pass), anything else becomes its `%XX` triple. -/
def encodedChar (c : Char) : List Char :=
  if c.isAlphanum then [c]
  else if c = ' ' then ['+']
  else ['%', hexDigit (c.toNat / 16), hexDigit (c.toNat % 16)]

theorem foldl_string_append (l : List String) (a : String) :
    l.foldl (· ++ ·) a = a ++ l.foldl (· ++ ·) "" := by
  induction l generalizing a with
  | nil => simp
  | cons x l ih =>
    simp only [List.foldl_cons]
    rw [ih (a ++ x), ih ("" ++ x)]
    simp [String.append_assoc]

theorem string_join_cons (s : String) (l : List String) :
    String.join (s :: l) = s ++ String.join l := by
  simp only [String.join, List.foldl_cons]
  rw [foldl_string_append]
  simp

theorem string_join_concat (l : List String) (s : String) :
    String.join (l ++ [s]) = String.join l ++ s := by
  simp only [String.join, List.foldl_append, List.foldl_cons, List.foldl_nil]

end ArxivTools

namespace ArxivTools

/-- C1: for a non-empty list of query expressions, `and` renders the
children joined by the encoded token `" AND "` (which is `"+AND+"`), `or`
joined by `"+OR+"`, `and_not` joined by `"+ANDNOT+"`, and `group` renders a
percent-encoded opening parenthesis, then the children's renderings, then a
percent-encoded closing parenthesis. -/
theorem combinators_render_joined (l : List QueryParams) (_h : l ≠ []) :
    (QueryParams.and l).toString
        = String.intercalate "+AND+" (l.map QueryParams.toString)
    ∧ (QueryParams.or l).toString
        = String.intercalate "+OR+" (l.map QueryParams.toString)
    ∧ (QueryParams.and_not l).toString
        = String.intercalate "+ANDNOT+" (l.map QueryParams.toString)
    ∧ (QueryParams.group l).toString
        = "%28" ++ String.join (l.map QueryParams.toString) ++ "%29" := by
  refine ⟨?_, ?_, ?_, ?_⟩
  · show String.intercalate (encode " AND ") _ = _
    rw [show encode " AND " = "+AND+" from rfl]
  · show String.intercalate (encode " OR ") _ = _
    rw [show encode " OR " = "+OR+" from rfl]
  · show String.intercalate (encode " ANDNOT ") _ = _
    rw [show encode " ANDNOT " = "+ANDNOT+" from rfl]
  · show String.join ((encode "(" :: l.map QueryParams.toString) ++ [encode ")"]) = _
    rw [show encode "(" = "%28" from rfl, show encode ")" = "%29" from rfl]
    rw [show ("%28" :: l.map QueryParams.toString) ++ ["%29"]
          = "%28" :: (l.map QueryParams.toString ++ ["%29"]) from rfl]
    rw [string_join_cons, string_join_concat, ← String.append_assoc]

theorem combinators_render_joined_witness :
    ([QueryParams.title "a"] : List QueryParams) ≠ []
    ∧ ((QueryParams.and [QueryParams.title "a"]).toString
          = String.intercalate "+AND+" ([QueryParams.title "a"].map QueryParams.toString)
      ∧ (QueryParams.or [QueryParams.title "a"]).toString
          = String.intercalate "+OR+" ([QueryParams.title "a"].map QueryParams.toString)
      ∧ (QueryParams.and_not [QueryParams.title "a"]).toString
          = String.intercalate "+ANDNOT+" ([QueryParams.title "a"].map QueryParams.toString)
      ∧ (QueryParams.group [QueryParams.title "a"]).toString
          = "%28" ++ String.join ([QueryParams.title "a"].map QueryParams.toString) ++ "%29") :=
  ⟨by decide, combinators_render_joined [QueryParams.title "a"] (by decide)⟩

/-- C2: the rendered URL is the fixed base, then the encoded expression
(with the `%20`→`+` normalization pass), then — each present only when its
value was set — the date-range clause, `&start=`, `&max_results=`,
`&sortBy=`, `&sortOrder=`, in exactly that order. -/
theorem build_query_renders_in_order (a : ArXiv) :
    a.build_query
      = "http://export.arxiv.org/api/query?search_query="
        ++ replaceSpaceEncS a.args.toString
        ++ dateClause a.submitted_date
        ++ startClause a.start
        ++ maxResultsClause a.max_resutls
        ++ sortByClause a.sort_by
        ++ sortOrderClause a.sort_order := by
  simp only [ArXiv.build_query, dateClause, startClause, maxResultsClause,
    sortByClause, sortOrderClause, String.append_assoc]

/-- C5 counterexample: a combinator invoked with an empty child list is not
rejected — `and []` returns the node `And ""`, whose rendering is the empty
string, and likewise for the other combinators; no error value exists
anywhere in `QueryParams`. -/
theorem empty_combinator_not_rejected :
    QueryParams.and [] = QueryParams.And ""
    ∧ QueryParams.or [] = QueryParams.Or ""
    ∧ QueryParams.and_not [] = QueryParams.Or ""
    ∧ QueryParams.group [] = QueryParams.Group "%28%29" := by
  decide

/-- C5 amended: calling a combinator with an empty child list is accepted
and produces a trivial result — `and`/`or`/`and_not` render to the empty
string and `group` renders to just the encoded parentheses. -/
theorem empty_combinator_trivial_result :
    (QueryParams.and []).toString = ""
    ∧ (QueryParams.or []).toString = ""
    ∧ (QueryParams.and_not []).toString = ""
    ∧ (QueryParams.group []).toString = "%28%29" := by
  decide

/-- C6: setting a submitted-date range leaves the combinator tree (`args`)
untouched, and the rendered request places the clause
`submittedDate:[<from>+TO+<to>]` (prefixed by its `&` separator)
immediately after the encoded expression and before every pagination and
sort parameter. -/
theorem submitted_date_clause_position (a : ArXiv) (dfrom dto : String) :
    (a.setSubmittedDate dfrom dto).args = a.args
    ∧ (a.setSubmittedDate dfrom dto).build_query
        = "http://export.arxiv.org/api/query?search_query="
          ++ replaceSpaceEncS a.args.toString
          ++ ("&submittedDate:[" ++ dfrom ++ "+TO+" ++ dto ++ "]")
          ++ startClause a.start
          ++ maxResultsClause a.max_resutls
          ++ sortByClause a.sort_by
          ++ sortOrderClause a.sort_order := by
  refine ⟨rfl, ?_⟩
  simp only [ArXiv.setSubmittedDate, ArXiv.build_query, startClause,
    maxResultsClause, sortByClause, sortOrderClause, String.append_assoc]

/-- C7 counterexample: the submitted-date setter accepts values that are
not `YYYYMMDDHHMM` timestamps — at the concrete input
(`"not-a-date"`, `"also-bad"`) it succeeds and stores the malformed clause
verbatim, raising no error. -/
theorem submitted_date_no_validation_cex :
    ((ArXiv.from_args (QueryParams.title "x")).setSubmittedDate
        "not-a-date" "also-bad").submitted_date
      = some "&submittedDate:[not-a-date+TO+also-bad]" := by
  decide

/-- C7 amended: the submitted-date setter performs no format validation —
every pair of argument strings is accepted and embedded verbatim into the
stored clause, and no error is raised. -/
theorem submitted_date_accepts_any_strings (a : ArXiv) (dfrom dto : String) :
    (a.setSubmittedDate dfrom dto).submitted_date
      = some ("&submittedDate:[" ++ dfrom ++ "+TO+" ++ dto ++ "]") :=
  rfl

/-- C9: a feed with exactly one `entry` containing one `author/name`, one
`category`, and one `link` with `title="pdf"` parses to exactly one Paper
whose author list has length 1, whose category list has length 1, whose
`pdf_url` is the link's `href` value, and whose `doi` stays empty. -/
theorem single_entry_parse (nm cat href : String) :
    ∃ p : Paper,
      ArXiv.defaultVal.parse_xml
        [.start "entry" [], .start "author" [], .start "name" [], .text nm,
         .close "name", .close "author", .empty "category" [("term", cat)],
         .empty "link" [("title", "pdf"), ("href", href)], .close "entry", .eof]
        = [p]
      ∧ p.authors = [nm] ∧ p.authors.length = 1
      ∧ p.categories = [cat] ∧ p.categories.length = 1
      ∧ p.pdf_url = href ∧ p.doi = "" :=
  ⟨{ Paper.default with authors := [nm], categories := [cat], pdf_url := href },
    rfl, rfl, rfl, rfl, rfl, rfl, rfl⟩

/-- C10: `parse_xml` depends only on its XML event input — any two `ArXiv`
values, however their `args`, `submitted_date`, `start`, `max_resutls`,
`sort_by` and `sort_order` differ, produce identical Paper sequences on the
same input (the method's body never touches the receiver, which `&self`
also leaves unchanged by construction). -/
theorem parse_xml_ignores_receiver (a b : ArXiv) (events : List XmlEvent) :
    a.parse_xml events = b.parse_xml events :=
  rfl

/-- C3, at the failing input: after the `arxiv:journal_ref` close event the
`in_journal_ref` context flag is `true` (lib.rs:451 sets `true` instead of
`false`), so character data occurring after the element's close is still
routed into the `journal_ref` field, overwriting the real value. -/
theorem journal_ref_close_leaves_flag_set :
    (parseEvents initState
        [.start "entry" [], .start "arxiv:journal_ref" [], .text "J. Ref 1",
         .close "arxiv:journal_ref"]).in_journal_ref = true
    ∧ ArXiv.defaultVal.parse_xml
        [.start "entry" [], .start "arxiv:journal_ref" [], .text "J. Ref 1",
         .close "arxiv:journal_ref", .text "stray text", .close "entry", .eof]
      = [{ Paper.default with journal_ref := "stray text" }] := by
  decide

theorem replaceSpaceEnc_cons (c : Char) (t : List Char) (h : c ≠ '%') :
    replaceSpaceEnc (c :: t) = c :: replaceSpaceEnc t := by
  rw [replaceSpaceEnc.eq_def]
  split
  · rename_i heq; injection heq with h1 h2; exact absurd h1 h
  · rename_i c' rest' _ heq; injection heq with h1 h2; rw [h1, h2]
  · rename_i heq; exact absurd heq (List.cons_ne_nil c t)

theorem replaceSpaceEnc_triple (a b : Char) (t : List Char) (h : ¬(a = '2' ∧ b = '0')) :
    replaceSpaceEnc ('%' :: a :: b :: t) = '%' :: replaceSpaceEnc (a :: b :: t) := by
  rw [replaceSpaceEnc.eq_def]
  split
  · rename_i heq
    injection heq with e1 rest1; injection rest1 with e2 rest2; injection rest2 with e3 _
    exact absurd ⟨e2, e3⟩ h
  · rename_i c' rest' _ heq; injection heq with g1 g2; rw [g1, g2]
  · rename_i heq; exact absurd heq (List.cons_ne_nil _ _)

theorem percentDecode_cons (c : Char) (t : List Char) (h1 : c ≠ '+') (h2 : c ≠ '%') :
    percentDecode (c :: t) = c :: percentDecode t := by
  rw [percentDecode.eq_def]
  split
  · rename_i heq; exact List.noConfusion heq
  · rename_i heq; injection heq with e1 _; exact absurd e1 h1
  · rename_i heq; injection heq with e1 _; exact absurd e1 h2
  · rename_i c' rest' _ heq; injection heq with g1 g2; rw [g1, g2]

theorem percentDecode_hex (a b : Char) (t : List Char) :
    percentDecode ('%' :: a :: b :: t)
      = Char.ofNat (16 * hexVal a + hexVal b) :: percentDecode t := rfl

theorem hexDigit_ne_percent : ∀ n < 16, hexDigit n ≠ '%' := by decide

theorem hexVal_hexDigit : ∀ n < 16, hexVal (hexDigit n) = n := by decide

theorem hexDigit_eq_two : ∀ n < 16, (hexDigit n = '2' ↔ n = 2) := by decide

theorem hexDigit_eq_zero : ∀ n < 16, (hexDigit n = '0' ↔ n = 0) := by decide

theorem alnum_ne_percent (c : Char) (h : c.isAlphanum = true) : c ≠ '%' := by
  intro e; rw [e] at h; exact absurd h (by decide)

theorem alnum_ne_plus (c : Char) (h : c.isAlphanum = true) : c ≠ '+' := by
  intro e; rw [e] at h; exact absurd h (by decide)

theorem div16_lt (n : Nat) (h : n ≤ 126) : n / 16 < 16 := by omega

theorem replaceSpaceEnc_append_encodedChar (c : Char) (t : List Char)
    (h : printableAscii c = true) :
    replaceSpaceEnc (percentEncodeChar c ++ t) = encodedChar c ++ replaceSpaceEnc t := by
  have hp : 32 ≤ c.toNat ∧ c.toNat ≤ 126 := by
    simpa [printableAscii] using h
  by_cases ha : c.isAlphanum
  · have e1 : percentEncodeChar c = [c] := by
      simp only [percentEncodeChar]; rw [if_pos ha]
    have e2 : encodedChar c = [c] := by
      simp only [encodedChar]; rw [if_pos ha]
    rw [e1, e2, List.cons_append, List.nil_append, List.cons_append, List.nil_append]
    exact replaceSpaceEnc_cons c t (alnum_ne_percent c ha)
  · by_cases hsp : c = ' '
    · subst hsp
      have e1 : percentEncodeChar ' ' = ['%', '2', '0'] := rfl
      have e2 : encodedChar ' ' = ['+'] := rfl
      rw [e1, e2]
      rfl
    · have hne : ¬(hexDigit (c.toNat / 16) = '2' ∧ hexDigit (c.toNat % 16) = '0') := by
        rintro ⟨e2, e0⟩
        rw [hexDigit_eq_two _ (div16_lt c.toNat hp.2)] at e2
        rw [hexDigit_eq_zero _ (Nat.mod_lt _ (by norm_num))] at e0
        have hc32 : c.toNat = 32 := by omega
        exact hsp (by
          have hoc := Char.ofNat_toNat c
          rw [hoc.symm, hc32])
      have e1 : percentEncodeChar c
          = ['%', hexDigit (c.toNat / 16), hexDigit (c.toNat % 16)] := by
        simp only [percentEncodeChar]; rw [if_neg ha]
      have e2 : encodedChar c
          = ['%', hexDigit (c.toNat / 16), hexDigit (c.toNat % 16)] := by
        simp only [encodedChar]; rw [if_neg ha, if_neg hsp]
      rw [e1, e2]
      simp only [List.cons_append, List.nil_append]
      rw [replaceSpaceEnc_triple _ _ _ hne,
        replaceSpaceEnc_cons _ _ (hexDigit_ne_percent _ (div16_lt c.toNat hp.2)),
        replaceSpaceEnc_cons _ _ (hexDigit_ne_percent _ (Nat.mod_lt _ (by norm_num)))]

theorem percentDecode_encodedChar (c : Char) (t : List Char)
    (h : printableAscii c = true) :
    percentDecode (encodedChar c ++ t) = c :: percentDecode t := by
  have hp : 32 ≤ c.toNat ∧ c.toNat ≤ 126 := by
    simpa [printableAscii] using h
  by_cases ha : c.isAlphanum
  · have e2 : encodedChar c = [c] := by
      simp only [encodedChar]; rw [if_pos ha]
    rw [e2, List.cons_append, List.nil_append]
    exact percentDecode_cons c t (alnum_ne_plus c ha) (alnum_ne_percent c ha)
  · by_cases hsp : c = ' '
    · subst hsp
      have e2 : encodedChar ' ' = ['+'] := rfl
      rw [e2]
      rfl
    · have e2 : encodedChar c
          = ['%', hexDigit (c.toNat / 16), hexDigit (c.toNat % 16)] := by
        simp only [encodedChar]; rw [if_neg ha, if_neg hsp]
      rw [e2]
      simp only [List.cons_append, List.nil_append]
      rw [percentDecode_hex,
        hexVal_hexDigit _ (div16_lt c.toNat hp.2),
        hexVal_hexDigit _ (Nat.mod_lt _ (by norm_num)),
        Nat.div_add_mod c.toNat 16, Char.ofNat_toNat]

theorem percentDecode_roundtrip (l : List Char) (h : l.all printableAscii = true) :
    percentDecode (replaceSpaceEnc (percentEncode l)) = l := by
  induction l with
  | nil => rfl
  | cons c l ih =>
    rw [List.all_cons, Bool.and_eq_true] at h
    show percentDecode (replaceSpaceEnc (percentEncodeChar c ++ percentEncode l)) = c :: l
    rw [replaceSpaceEnc_append_encodedChar c _ h.1,
      percentDecode_encodedChar c _ h.1, ih h.2]

theorem percentDecode_encode (s : String) (h : s.data.all printableAscii = true) :
    percentDecodeS (encode s) = s :=
  String.ext (percentDecode_roundtrip s.data h)

theorem payload_printable (pre t suf : String)
    (hpre : pre.data.all printableAscii = true)
    (ht : t.data.all printableAscii = true)
    (hsuf : suf.data.all printableAscii = true) :
    (pre ++ t ++ suf).data.all printableAscii = true := by
  simp [String.data_append, List.all_append, hpre, ht, hsuf]

/-- C8: for every field-predicate factory applied to printable-ASCII text
`t`, percent-decoding the rendered predicate string recovers exactly
`<prefix>:"<t>"`. -/
theorem field_factories_roundtrip (t : String)
    (h : t.data.all printableAscii = true) :
    percentDecodeS (QueryParams.title t).toString = "ti:\"" ++ t ++ "\""
    ∧ percentDecodeS (QueryParams.author t).toString = "au:\"" ++ t ++ "\""
    ∧ percentDecodeS (QueryParams.abstract_text t).toString = "abs:\"" ++ t ++ "\""
    ∧ percentDecodeS (QueryParams.comment t).toString = "co:\"" ++ t ++ "\""
    ∧ percentDecodeS (QueryParams.journal_ref t).toString = "jr:\"" ++ t ++ "\""
    ∧ percentDecodeS (QueryParams.report_number t).toString = "rn:\"" ++ t ++ "\""
    ∧ percentDecodeS (QueryParams.id t).toString = "id:\"" ++ t ++ "\""
    ∧ percentDecodeS (QueryParams.all t).toString = "all:\"" ++ t ++ "\"" :=
  ⟨percentDecode_encode _ (payload_printable "ti:\"" t "\"" (by decide) h (by decide)),
   percentDecode_encode _ (payload_printable "au:\"" t "\"" (by decide) h (by decide)),
   percentDecode_encode _ (payload_printable "abs:\"" t "\"" (by decide) h (by decide)),
   percentDecode_encode _ (payload_printable "co:\"" t "\"" (by decide) h (by decide)),
   percentDecode_encode _ (payload_printable "jr:\"" t "\"" (by decide) h (by decide)),
   percentDecode_encode _ (payload_printable "rn:\"" t "\"" (by decide) h (by decide)),
   percentDecode_encode _ (payload_printable "id:\"" t "\"" (by decide) h (by decide)),
   percentDecode_encode _ (payload_printable "all:\"" t "\"" (by decide) h (by decide))⟩

theorem field_factories_roundtrip_witness :
    ("hello world (v2)" : String).data.all printableAscii = true
    ∧ (percentDecodeS (QueryParams.title "hello world (v2)").toString
          = "ti:\"" ++ "hello world (v2)" ++ "\""
      ∧ percentDecodeS (QueryParams.author "hello world (v2)").toString
          = "au:\"" ++ "hello world (v2)" ++ "\""
      ∧ percentDecodeS (QueryParams.abstract_text "hello world (v2)").toString
          = "abs:\"" ++ "hello world (v2)" ++ "\""
      ∧ percentDecodeS (QueryParams.comment "hello world (v2)").toString
          = "co:\"" ++ "hello world (v2)" ++ "\""
      ∧ percentDecodeS (QueryParams.journal_ref "hello world (v2)").toString
          = "jr:\"" ++ "hello world (v2)" ++ "\""
      ∧ percentDecodeS (QueryParams.report_number "hello world (v2)").toString
          = "rn:\"" ++ "hello world (v2)" ++ "\""
      ∧ percentDecodeS (QueryParams.id "hello world (v2)").toString
          = "id:\"" ++ "hello world (v2)" ++ "\""
      ∧ percentDecodeS (QueryParams.all "hello world (v2)").toString
          = "all:\"" ++ "hello world (v2)" ++ "\"") :=
  ⟨by decide, field_factories_roundtrip "hello world (v2)" (by decide)⟩

theorem entryLocalEv_noEof (ev : XmlEvent) (h : entryLocalEv ev = true) :
    noEofEv ev = true := by
  cases ev <;> simp_all [entryLocalEv, noEofEv]

theorem parseEvents_eq_foldl (evs : List XmlEvent) (st : ParseState)
    (h : evs.all noEofEv = true) :
    parseEvents st evs = List.foldl step st evs := by
  induction evs generalizing st with
  | nil => rfl
  | cons ev rest ih =>
    rw [List.all_cons, Bool.and_eq_true] at h
    cases ev with
    | eof => exact absurd h.1 (by decide)
    | start n attrs => exact ih (step st (.start n attrs)) h.2
    | close n => exact ih (step st (.close n)) h.2
    | text s => exact ih (step st (.text s)) h.2
    | empty n attrs => exact ih (step st (.empty n attrs)) h.2
    | other => exact ih (step st .other) h.2

theorem step_open_entry (st : ParseState) :
    step st (.start "entry" []) = { st with in_entry := true, res := Paper.default } := by
  simp only [step]
  rw [if_pos trivial]

theorem step_close_entry (st : ParseState) :
    step st (.close "entry")
      = { st with in_entry := false, responses := st.responses ++ [st.res],
                  res := Paper.default } := by
  simp only [step]
  rw [if_pos trivial]

theorem step_responses_const (st : ParseState) (ev : XmlEvent)
    (h : entryLocalEv ev = true) :
    (step st ev).responses = st.responses := by
  cases ev with
  | start n attrs =>
    simp only [step, apply_ite ParseState.responses, ite_self]
  | close n =>
    have hn : ¬(n = "entry") := by
      simpa [entryLocalEv] using h
    simp only [step]
    rw [if_neg hn]
    simp only [apply_ite ParseState.responses, ite_self]
  | text s =>
    simp only [step, apply_ite ParseState.responses, ite_self]
  | empty n attrs =>
    simp only [step, apply_ite ParseState.responses, ite_self]
  | eof => rfl
  | other => rfl

theorem foldl_responses_const (evs : List XmlEvent) (st : ParseState)
    (h : entryLocal evs = true) :
    (List.foldl step st evs).responses = st.responses := by
  induction evs generalizing st with
  | nil => rfl
  | cons ev rest ih =>
    rw [entryLocal, List.all_cons, Bool.and_eq_true] at h
    rw [List.foldl_cons, ih (step st ev) h.2, step_responses_const st ev h.1]

theorem step_flagsRes (st₁ st₂ : ParseState) (ev : XmlEvent)
    (h : flagsRes st₁ = flagsRes st₂) :
    flagsRes (step st₁ ev) = flagsRes (step st₂ ev) := by
  simp only [flagsRes, Prod.mk.injEq] at h
  obtain ⟨⟨h1, h2, h3, h4, h5, h6, h7, h8, h9, h10⟩, hres⟩ := h
  cases ev <;>
    simp only [step, apply_ite flagsRes] <;>
    simp [flagsRes, h1, h2, h3, h4, h5, h6, h7, h8, h9, h10, hres]

theorem foldl_flagsRes (evs : List XmlEvent) (st₁ st₂ : ParseState)
    (h : flagsRes st₁ = flagsRes st₂) :
    flagsRes (List.foldl step st₁ evs) = flagsRes (List.foldl step st₂ evs) := by
  induction evs generalizing st₁ st₂ with
  | nil => exact h
  | cons ev rest ih =>
    simp only [List.foldl_cons]
    exact ih (step st₁ ev) (step st₂ ev) (step_flagsRes st₁ st₂ ev h)

theorem foldl_res_scrub (evs : List XmlEvent) (st : ParseState) :
    (List.foldl step (scrubResponses st) evs).res = (List.foldl step st evs).res :=
  congrArg Prod.snd (foldl_flagsRes evs (scrubResponses st) st rfl)

/-- C4: a feed of two sequential `entry` elements parses to exactly two
Papers in document order.  The first paper is the accumulator built from
the first entry's own events alone (started empty at the entry open,
sealed into the result at the matching close); the second is the
accumulator built from the second entry's own events, started empty at the
second open with the first entry's sealed output scrubbed away — only the
boolean context flags survive the entry boundary, never any field value. -/
theorem two_entries_isolated (evs1 evs2 : List XmlEvent)
    (h1 : entryLocal evs1 = true) (h2 : entryLocal evs2 = true) :
    ∃ p1 p2 : Paper,
      ArXiv.defaultVal.parse_xml
          ([XmlEvent.start "entry" []] ++ evs1 ++ [XmlEvent.close "entry"]
            ++ [XmlEvent.start "entry" []] ++ evs2 ++ [XmlEvent.close "entry"])
        = [p1, p2]
      ∧ p1 = (List.foldl step (entryOpen initState) evs1).res
      ∧ p2 = (List.foldl step
            (scrubResponses (entryOpen
              (step (List.foldl step (entryOpen initState) evs1)
                (XmlEvent.close "entry")))) evs2).res
      ∧ (∀ st : ParseState, (entryOpen st).res = Paper.default) := by
  have hA : ∀ evs : List XmlEvent, entryLocal evs = true → evs.all noEofEv = true :=
    fun evs h => List.all_eq_true.2 fun ev hev =>
      entryLocalEv_noEof ev (List.all_eq_true.1 h ev hev)
  have hno : ([XmlEvent.start "entry" []] ++ evs1 ++ [XmlEvent.close "entry"]
      ++ [XmlEvent.start "entry" []] ++ evs2
      ++ [XmlEvent.close "entry"]).all noEofEv = true := by
    simp [List.all_append, hA evs1 h1, hA evs2 h2, noEofEv]
  set s1 : ParseState := List.foldl step (entryOpen initState) evs1 with hs1
  set c1 : ParseState := step s1 (XmlEvent.close "entry") with hc1
  set s2 : ParseState := entryOpen c1 with hs2
  set s3 : ParseState := List.foldl step s2 evs2 with hs3
  refine ⟨s1.res, (List.foldl step (scrubResponses s2) evs2).res, ?_, rfl, rfl,
    fun st => by rw [entryOpen, step_open_entry]⟩
  show (parseEvents initState _).responses = _
  rw [parseEvents_eq_foldl _ _ hno]
  simp only [List.foldl_append, List.foldl_cons, List.foldl_nil]
  have e1 : (step s3 (XmlEvent.close "entry")).responses = s3.responses ++ [s3.res] := by
    rw [step_close_entry]
  have e2 : s3.responses = s2.responses := foldl_responses_const evs2 s2 h2
  have e3 : s2.responses = c1.responses := by
    rw [hs2, entryOpen, step_open_entry]
  have e4 : c1.responses = s1.responses ++ [s1.res] := by
    rw [hc1, step_close_entry]
  have e5 : s1.responses = [] := by
    rw [hs1, foldl_responses_const evs1 _ h1, entryOpen, step_open_entry]
    rfl
  have e6 : s3.res = (List.foldl step (scrubResponses s2) evs2).res :=
    (foldl_res_scrub evs2 s2).symm
  show (step s3 (XmlEvent.close "entry")).responses = _
  rw [e1, e2, e3, e4, e5, e6]
  rfl

theorem two_entries_isolated_witness :
    entryLocal [XmlEvent.start "title" [], XmlEvent.text "T1",
        XmlEvent.close "title"] = true
    ∧ entryLocal [XmlEvent.start "summary" [], XmlEvent.text "A2",
        XmlEvent.close "summary"] = true
    ∧ (∃ p1 p2 : Paper,
        ArXiv.defaultVal.parse_xml
            ([XmlEvent.start "entry" []]
              ++ [XmlEvent.start "title" [], XmlEvent.text "T1", XmlEvent.close "title"]
              ++ [XmlEvent.close "entry"] ++ [XmlEvent.start "entry" []]
              ++ [XmlEvent.start "summary" [], XmlEvent.text "A2", XmlEvent.close "summary"]
              ++ [XmlEvent.close "entry"])
          = [p1, p2]
        ∧ p1 = (List.foldl step (entryOpen initState)
            [XmlEvent.start "title" [], XmlEvent.text "T1", XmlEvent.close "title"]).res
        ∧ p2 = (List.foldl step
              (scrubResponses (entryOpen
                (step (List.foldl step (entryOpen initState)
                    [XmlEvent.start "title" [], XmlEvent.text "T1", XmlEvent.close "title"])
                  (XmlEvent.close "entry"))))
              [XmlEvent.start "summary" [], XmlEvent.text "A2",
                XmlEvent.close "summary"]).res
        ∧ (∀ st : ParseState, (entryOpen st).res = Paper.default)) :=
  ⟨by decide, by decide,
    two_entries_isolated
      [XmlEvent.start "title" [], XmlEvent.text "T1", XmlEvent.close "title"]
      [XmlEvent.start "summary" [], XmlEvent.text "A2", XmlEvent.close "summary"]
      (by decide) (by decide)⟩

end ArxivTools
